import Mathlib

/-!
Shallow embedding of the Smart Shutter Position integration
(`custom_components/smart_shutter_position/cover.py` and `config_flow.py`).

Time values (`time.monotonic()` readings, durations, calibration constants)
are modelled as rationals; positions are integers.  Each `async` method of
`SmartShutterCover` becomes a pure function taking the reading of
`time.monotonic()` at the call (`now`), the current state of the source
entity as seen through `hass.states.get` (`source`), and the entity state,
returning the new entity state together with the list of service calls the
method issues to the source cover.
-/

namespace SmartShutter

/-- `POSITION_OPEN = 100` from `const.py`. -/
def POSITION_OPEN : ℤ := 100

/-- `POSITION_CLOSED = 0` from `const.py`. -/
def POSITION_CLOSED : ℤ := 0

/-- `DEFAULT_TIMEOUT = 60` seconds from `const.py`. -/
def DEFAULT_TIMEOUT : ℚ := 60

/-- The two movement directions stored in `self._movement_direction`
(the strings `"opening"` and `"closing"` in the Python source). -/
inductive Direction where
  | opening
  | closing
deriving DecidableEq, Repr

/-- The cover services that can be called on the source entity
(`SERVICE_OPEN_COVER`, `SERVICE_CLOSE_COVER`, `SERVICE_STOP_COVER`). -/
inductive Command where
  | open_cover
  | close_cover
  | stop_cover
deriving DecidableEq, Repr

/-- The `state` field of the source cover entity as read by
`_async_stop_cover_internal` and `_async_position_timer`
(`STATE_OPENING`, `STATE_CLOSING`, or anything else). -/
inductive SourceMotion where
  | opening
  | closing
  | other
deriving DecidableEq, Repr

/-- The part of the source entity state the cover logic reads:
whether `ATTR_SUPPORTED_FEATURES` contains `CoverEntityFeature.STOP`,
and the transient motion state. -/
structure SourceState where
  supportsStop : Bool
  motion : SourceMotion
deriving DecidableEq, Repr

/-- The per-entity calibration constants `self._time_to_open` and
`self._time_to_close`, in seconds. -/
structure Calib where
  time_to_open : ℚ
  time_to_close : ℚ
deriving DecidableEq, Repr

/-- The `asyncio.Task` stored in `self._position_timer`: the delay and
target position it was created with by `async_set_cover_position`, and
whether the task has completed (`task.done()`). -/
structure Timer where
  delay : ℚ
  target : ℤ
  done : Bool
deriving DecidableEq, Repr

/-- The mutable fields of `SmartShutterCover` that the movement logic
touches.  Each field is an independent `Option`, exactly as the Python
class keeps five independent nullable attributes. -/
structure CoverState where
  current_position : ℤ
  target_position : Option ℤ
  movement_start_time : Option ℚ
  movement_start_position : Option ℤ
  movement_direction : Option Direction
  position_timer : Option Timer
deriving DecidableEq, Repr

/-- Python `int()` applied to a (real-valued) float: truncation toward
zero. -/
def pyInt (x : ℚ) : ℤ := if 0 ≤ x then ⌊x⌋ else ⌈x⌉

/-- `_is_moving`: the cover counts as moving iff `_movement_direction`
is not `None`. -/
def isMoving (s : CoverState) : Bool := s.movement_direction.isSome

/-- `_calculate_current_position`: dead-reckoned position estimate.
The Python guard is `if not self._movement_start_time or
self._movement_start_position is None`, so a start time of `0.0` is
treated as absent (Python truthiness), not only `None`. -/
def calculateCurrentPosition (calib : Calib) (now : ℚ) (s : CoverState) : ℤ :=
  match s.movement_start_time, s.movement_start_position with
  | some t0, some p0 =>
    if t0 = 0 then
      s.current_position
    else
      let elapsed := now - t0
      let newPosition : ℚ :=
        match s.movement_direction with
        | some Direction.opening => p0 + elapsed / calib.time_to_open * 100
        | _ => p0 - elapsed / calib.time_to_close * 100
      max POSITION_CLOSED (min POSITION_OPEN (pyInt newPosition))
  | _, _ => s.current_position

/-- The `current_cover_position` property: the live estimate while
moving, otherwise the stored believed position. -/
def currentCoverPosition (calib : Calib) (now : ℚ) (s : CoverState) : ℤ :=
  if isMoving s then calculateCurrentPosition calib now s else s.current_position

/-- `_finalize_movement(position)`: store the given position, clear all
movement fields, and cancel the position timer if it is still pending
(`if self._position_timer and not self._position_timer.done()`). -/
def finalizeMovement (position : ℤ) (s : CoverState) : CoverState :=
  { current_position := position
    target_position := none
    movement_start_time := none
    movement_start_position := none
    movement_direction := none
    position_timer :=
      match s.position_timer with
      | some t => if !t.done then none else some t
      | none => none }

/-- `_async_source_state_changed(event)`: `newState` is the event's
`new_state` (absent when `None`), carrying the source's
`current_position` attribute (absent when the attribute is missing). -/
def sourceStateChanged (newState : Option (Option ℤ)) (s : CoverState) : CoverState :=
  match newState with
  | none => s
  | some sourcePosition =>
    if sourcePosition = some POSITION_CLOSED then finalizeMovement POSITION_CLOSED s
    else if sourcePosition = some POSITION_OPEN then finalizeMovement POSITION_OPEN s
    else s

/-- `_cancel_position_timer`: cancel the timer task when it exists and
is not yet done; a completed task is left in place. -/
def cancelPositionTimer (s : CoverState) : CoverState :=
  match s.position_timer with
  | some t => if !t.done then { s with position_timer := none } else s
  | none => s

/-- The settle command chosen by `_async_stop_cover_internal` and
`_async_position_timer`: native `stop_cover` when supported, otherwise
the command opposite the source's reported transient direction. -/
def settleCommands (source : Option SourceState) : List Command :=
  match source with
  | none => []
  | some src =>
    if src.supportsStop then [Command.stop_cover]
    else
      match src.motion with
      | SourceMotion.opening => [Command.close_cover]
      | SourceMotion.closing => [Command.open_cover]
      | SourceMotion.other => []

/-- `_async_stop_cover_internal`: freeze the believed position at the
current estimate when moving, clear the movement fields, cancel the
timer, and send the settle command. -/
def stopCoverInternal (calib : Calib) (now : ℚ) (source : Option SourceState)
    (s : CoverState) : CoverState × List Command :=
  let s1 :=
    if isMoving s then { s with current_position := calculateCurrentPosition calib now s }
    else s
  let s2 := { s1 with movement_direction := none
                      movement_start_time := none
                      movement_start_position := none
                      target_position := none }
  (cancelPositionTimer s2, settleCommands source)

/-- `_async_stop_and_calculate_position`: when moving, store the current
estimate and run the internal stop logic; otherwise do nothing. -/
def stopAndCalculatePosition (calib : Calib) (now : ℚ) (source : Option SourceState)
    (s : CoverState) : CoverState × List Command :=
  if isMoving s then
    stopCoverInternal calib now source
      { s with current_position := calculateCurrentPosition calib now s }
  else (s, [])

/-- `_start_movement(direction, target)`: record direction, start time
(`time.monotonic()`), start position (the current believed position) and
target, all at once. -/
def startMovement (direction : Direction) (target : ℤ) (now : ℚ)
    (s : CoverState) : CoverState :=
  { s with movement_direction := some direction
           movement_start_time := some now
           movement_start_position := some s.current_position
           target_position := some target }

/-- `async_open_cover`: finalize any movement, start tracking an opening
movement toward 100, then call `open_cover` on the source.  There is no
at-extreme check and no stop timer is armed. -/
def asyncOpenCover (calib : Calib) (now : ℚ) (source : Option SourceState)
    (s : CoverState) : CoverState × List Command :=
  let r := stopAndCalculatePosition calib now source s
  (startMovement Direction.opening POSITION_OPEN now r.1, r.2 ++ [Command.open_cover])

/-- `async_close_cover`: symmetric to `asyncOpenCover`. -/
def asyncCloseCover (calib : Calib) (now : ℚ) (source : Option SourceState)
    (s : CoverState) : CoverState × List Command :=
  let r := stopAndCalculatePosition calib now source s
  (startMovement Direction.closing POSITION_CLOSED now r.1, r.2 ++ [Command.close_cover])

/-- `async_set_cover_position`: finalize any movement; no-op when the
requested position equals the snapshot; otherwise pick the direction and
calibration rate from the sign of the delta, start the movement, send
the corresponding command, and create the stop timer with
`travel_time = (|delta| / 100) * time_for_full`. -/
def setCoverPosition (calib : Calib) (position? : Option ℤ) (now : ℚ)
    (source : Option SourceState) (s : CoverState) : CoverState × List Command :=
  match position? with
  | none => (s, [])
  | some position =>
    let r := stopAndCalculatePosition calib now source s
    let s1 := r.1
    if position = s1.current_position then (s1, r.2)
    else
      let delta := position - s1.current_position
      let direction := if delta > 0 then Direction.opening else Direction.closing
      let timeForFull := if delta > 0 then calib.time_to_open else calib.time_to_close
      let service := if delta > 0 then Command.open_cover else Command.close_cover
      let travelTime := (|(delta : ℚ)| / 100) * timeForFull
      let s2 := startMovement direction position now
        { s1 with target_position := some position }
      let s3 := { s2 with position_timer := some ⟨travelTime, position, false⟩ }
      (s3, r.2 ++ [service])

/-- The body of `_async_position_timer` after the sleep completes: store
the target position, clear the movement fields, and send the settle
command.  The task does not clear `self._position_timer`; it merely
becomes done. -/
def positionTimerBody (targetPosition : ℤ) (source : Option SourceState)
    (s : CoverState) : CoverState × List Command :=
  ({ s with current_position := targetPosition
            movement_direction := none
            movement_start_time := none
            movement_start_position := none
            target_position := none },
   settleCommands source)

/-- State of the entity observable when the `open_cover` service call in
`async_open_cover` raises: `_start_movement` has already run and nothing
rolls it back, and no statement follows the await. -/
def openCoverStateOnSendFailure (calib : Calib) (now : ℚ) (source : Option SourceState)
    (s : CoverState) : CoverState :=
  startMovement Direction.opening POSITION_OPEN now
    (stopAndCalculatePosition calib now source s).1

/-- State of the entity observable when the `close_cover` service call in
`async_close_cover` raises. -/
def closeCoverStateOnSendFailure (calib : Calib) (now : ℚ) (source : Option SourceState)
    (s : CoverState) : CoverState :=
  startMovement Direction.closing POSITION_CLOSED now
    (stopAndCalculatePosition calib now source s).1

/-- State of the entity observable when the service call in
`async_set_cover_position` raises: `_start_movement` has run, the stop
timer has not yet been created. -/
def setCoverPositionStateOnSendFailure (calib : Calib) (position : ℤ) (now : ℚ)
    (source : Option SourceState) (s : CoverState) : CoverState :=
  let s1 := (stopAndCalculatePosition calib now source s).1
  if position = s1.current_position then s1
  else
    let delta := position - s1.current_position
    let direction := if delta > 0 then Direction.opening else Direction.closing
    startMovement direction position now { s1 with target_position := some position }

/-- The entity state as `__init__` leaves it, with `async_added_to_hass`
optionally restoring a last known position (`restored`). -/
def initialState (restored : Option ℤ) : CoverState :=
  { current_position :=
      match restored with
      | some p => p
      | none => POSITION_CLOSED
    target_position := none
    movement_start_time := none
    movement_start_position := none
    movement_direction := none
    position_timer := none }

/-- The external events that can mutate a `SmartShutterCover`'s state:
the four service handlers, a source state-change event, and the pending
position timer firing. -/
inductive Event where
  | openCover (now : ℚ) (source : Option SourceState)
  | closeCover (now : ℚ) (source : Option SourceState)
  | setPosition (position? : Option ℤ) (now : ℚ) (source : Option SourceState)
  | stopCover (now : ℚ) (source : Option SourceState)
  | sourceEvent (newState : Option (Option ℤ))
  | timerFire (source : Option SourceState)

/-- One step of the entity: dispatch an event.  The timer body only runs
when a pending (not done, not cancelled) timer exists; firing marks the
task done. -/
def step (calib : Calib) (e : Event) (s : CoverState) : CoverState :=
  match e with
  | Event.openCover now src => (asyncOpenCover calib now src s).1
  | Event.closeCover now src => (asyncCloseCover calib now src s).1
  | Event.setPosition p now src => (setCoverPosition calib p now src s).1
  | Event.stopCover now src => (stopCoverInternal calib now src s).1
  | Event.sourceEvent ns => sourceStateChanged ns s
  | Event.timerFire src =>
    match s.position_timer with
    | some t =>
      if !t.done then
        { (positionTimerBody t.target src s).1 with
            position_timer := some { t with done := true } }
      else s
    | none => s

/-- States reachable from a freshly constructed entity by any sequence
of events. -/
inductive Reachable (calib : Calib) : CoverState → Prop where
  | init (restored : Option ℤ) : Reachable calib (initialState restored)
  | next (e : Event) {s : CoverState} :
      Reachable calib s → Reachable calib (step calib e s)

/-- The lockstep property of the three movement-tracking fields. -/
def lockstep (s : CoverState) : Prop :=
  (s.movement_direction.isSome ↔ s.movement_start_time.isSome) ∧
  (s.movement_direction.isSome ↔ s.movement_start_position.isSome)

instance (s : CoverState) : Decidable (lockstep s) := by
  unfold lockstep; infer_instance

/-- Estimate formula as the specification states it (section 4.1):
`elapsed = now - startTime`, `fullTravel` selected by direction,
`delta = elapsed / fullTravel * 100`, added when opening and subtracted
when closing, truncated to an integer and clamped to `[0, 100]`. -/
def specEstimate (direction : Direction) (startPosition : ℤ) (startTime : ℚ)
    (calib : Calib) (now : ℚ) : ℤ :=
  let elapsed := now - startTime
  let fullTravel :=
    match direction with
    | Direction.opening => calib.time_to_open
    | Direction.closing => calib.time_to_close
  let delta := elapsed / fullTravel * 100
  let raw : ℚ :=
    match direction with
    | Direction.opening => startPosition + delta
    | Direction.closing => startPosition - delta
  max 0 (min 100 (pyInt raw))

/-- Python `round(x)` (round half to even), used by the calibration
measurement `round(time.monotonic() - start_time, 1)`. -/
def pyRoundInt (x : ℚ) : ℤ :=
  let f := ⌊x⌋
  let r := x - f
  if r < 1 / 2 then f
  else if 1 / 2 < r then f + 1
  else if f % 2 = 0 then f else f + 1

/-- Python `round(x, 1)`: round to one decimal place. -/
def pyRound1 (x : ℚ) : ℚ := (pyRoundInt (10 * x) : ℚ) / 10

/-- `_async_calibrate_close`: the measured close travel time.  `timedOut`
records whether `asyncio.wait_for` timed out before the source reached
`STATE_CLOSED`; `elapsed` is the time the transition took otherwise. -/
def calibrateCloseMeasured (timedOut : Bool) (elapsed : ℚ) : ℚ :=
  if timedOut then DEFAULT_TIMEOUT else pyRound1 elapsed

/-- `_async_calibrate_open`: the measured open travel time, symmetric to
`calibrateCloseMeasured`. -/
def calibrateOpenMeasured (timedOut : Bool) (elapsed : ℚ) : ℚ :=
  if timedOut then DEFAULT_TIMEOUT else pyRound1 elapsed

/-- An idle entity state believing position `q`, with no movement fields
set and no timer. -/
def idleAt (q : ℤ) : CoverState :=
  { current_position := q
    target_position := none
    movement_start_time := none
    movement_start_position := none
    movement_direction := none
    position_timer := none }

/-- A state in which the entity is `Moving(Opening)` but the recorded
start time is the float `0.0`, which the Python guard
`if not self._movement_start_time` treats as absent. -/
def zeroStartState : CoverState :=
  { current_position := 37
    target_position := some 100
    movement_start_time := some 0
    movement_start_position := some 37
    movement_direction := some Direction.opening
    position_timer := none }

/-- The state right after `setPosition(50)` on an idle entity at
position 0 with `time_to_open = 30`, called at monotonic time `t0`. -/
def c6run (t0 : ℚ) : CoverState :=
  (setCoverPosition ⟨30, 20⟩ (some 50) t0 none (idleAt 0)).1

/-- The state right after `setPosition(50)` on an idle entity at
position 0 with `time_to_open = 30`, called at monotonic time 30. -/
def c8run : CoverState :=
  (setCoverPosition ⟨30, 20⟩ (some 50) 30 none (idleAt 0)).1

/-- A `Moving(Closing)` state believing position 37 with a pending stop
timer, as in the endpoint-override scenario. -/
def closingAt37 : CoverState :=
  { current_position := 37
    target_position := some 0
    movement_start_time := some 5
    movement_start_position := some 37
    movement_direction := some Direction.closing
    position_timer := some ⟨10, 0, false⟩ }

theorem pyInt_mono {x y : ℚ} (h : x ≤ y) : pyInt x ≤ pyInt y := by
  unfold pyInt
  by_cases hx : 0 ≤ x <;> by_cases hy : 0 ≤ y <;> simp [hx, hy]
  · exact Int.floor_le_floor h
  · linarith
  · refine le_trans (Int.ceil_le.mpr ?_) (Int.floor_nonneg.mpr hy)
    exact_mod_cast le_of_not_le hx
  · exact Int.ceil_le_ceil h

theorem pyInt_intCast (n : ℤ) : pyInt (n : ℚ) = n := by
  unfold pyInt
  by_cases hn : (0 : ℚ) ≤ (n : ℚ) <;> simp [hn]

theorem clamp_mono {a b : ℤ} (h : a ≤ b) :
    max POSITION_CLOSED (min POSITION_OPEN a) ≤ max POSITION_CLOSED (min POSITION_OPEN b) :=
  max_le_max (le_refl _) (min_le_min (le_refl _) h)

theorem calc_of_no_start_time (calib : Calib) (now : ℚ) (s : CoverState)
    (h : s.movement_start_time = none) :
    calculateCurrentPosition calib now s = s.current_position := by
  unfold calculateCurrentPosition
  rw [h]

theorem calc_of_no_start_pos (calib : Calib) (now : ℚ) (s : CoverState)
    (h : s.movement_start_position = none) :
    calculateCurrentPosition calib now s = s.current_position := by
  unfold calculateCurrentPosition
  rw [h]
  rcases s.movement_start_time with _ | t0 <;> rfl

theorem calc_of_zero_start (calib : Calib) (now : ℚ) (s : CoverState) (p0 : ℤ)
    (hst : s.movement_start_time = some 0) (hsp : s.movement_start_position = some p0) :
    calculateCurrentPosition calib now s = s.current_position := by
  unfold calculateCurrentPosition
  rw [hst, hsp]
  simp

theorem calc_moving_opening (calib : Calib) (now t0 : ℚ) (p0 : ℤ) (s : CoverState)
    (hd : s.movement_direction = some Direction.opening)
    (hst : s.movement_start_time = some t0) (hsp : s.movement_start_position = some p0)
    (ht0 : t0 ≠ 0) :
    calculateCurrentPosition calib now s =
      max POSITION_CLOSED (min POSITION_OPEN
        (pyInt (p0 + (now - t0) / calib.time_to_open * 100))) := by
  unfold calculateCurrentPosition
  rw [hst, hsp]
  simp [ht0, hd]

theorem calc_moving_closing (calib : Calib) (now t0 : ℚ) (p0 : ℤ) (s : CoverState)
    (hd : s.movement_direction = some Direction.closing)
    (hst : s.movement_start_time = some t0) (hsp : s.movement_start_position = some p0)
    (ht0 : t0 ≠ 0) :
    calculateCurrentPosition calib now s =
      max POSITION_CLOSED (min POSITION_OPEN
        (pyInt (p0 - (now - t0) / calib.time_to_close * 100))) := by
  unfold calculateCurrentPosition
  rw [hst, hsp]
  simp [ht0, hd]

theorem cancelPositionTimer_direction (s : CoverState) :
    (cancelPositionTimer s).movement_direction = s.movement_direction := by
  unfold cancelPositionTimer
  split
  · split <;> rfl
  · rfl

theorem cancelPositionTimer_start_time (s : CoverState) :
    (cancelPositionTimer s).movement_start_time = s.movement_start_time := by
  unfold cancelPositionTimer
  split
  · split <;> rfl
  · rfl

theorem cancelPositionTimer_start_pos (s : CoverState) :
    (cancelPositionTimer s).movement_start_position = s.movement_start_position := by
  unfold cancelPositionTimer
  split
  · split <;> rfl
  · rfl

theorem cancelPositionTimer_current (s : CoverState) :
    (cancelPositionTimer s).current_position = s.current_position := by
  unfold cancelPositionTimer
  split
  · split <;> rfl
  · rfl

theorem calc_mono_opening (calib : Calib) (hT : 0 < calib.time_to_open)
    (s : CoverState) (hd : s.movement_direction = some Direction.opening)
    {n1 n2 : ℚ} (h : n1 ≤ n2) :
    calculateCurrentPosition calib n1 s ≤ calculateCurrentPosition calib n2 s := by
  rcases hst : s.movement_start_time with _ | t0
  · rw [calc_of_no_start_time calib n1 s hst, calc_of_no_start_time calib n2 s hst]
  rcases hsp : s.movement_start_position with _ | p0
  · rw [calc_of_no_start_pos calib n1 s hsp, calc_of_no_start_pos calib n2 s hsp]
  by_cases ht0 : t0 = 0
  · subst ht0
    rw [calc_of_zero_start calib n1 s p0 hst hsp, calc_of_zero_start calib n2 s p0 hst hsp]
  rw [calc_moving_opening calib n1 t0 p0 s hd hst hsp ht0,
    calc_moving_opening calib n2 t0 p0 s hd hst hsp ht0]
  apply clamp_mono
  apply pyInt_mono
  have hdiv : (n1 - t0) / calib.time_to_open ≤ (n2 - t0) / calib.time_to_open :=
    div_le_div_of_nonneg_right (by linarith) hT.le
  nlinarith

theorem calc_mono_closing (calib : Calib) (hT : 0 < calib.time_to_close)
    (s : CoverState) (hd : s.movement_direction = some Direction.closing)
    {n1 n2 : ℚ} (h : n1 ≤ n2) :
    calculateCurrentPosition calib n2 s ≤ calculateCurrentPosition calib n1 s := by
  rcases hst : s.movement_start_time with _ | t0
  · rw [calc_of_no_start_time calib n1 s hst, calc_of_no_start_time calib n2 s hst]
  rcases hsp : s.movement_start_position with _ | p0
  · rw [calc_of_no_start_pos calib n1 s hsp, calc_of_no_start_pos calib n2 s hsp]
  by_cases ht0 : t0 = 0
  · subst ht0
    rw [calc_of_zero_start calib n1 s p0 hst hsp, calc_of_zero_start calib n2 s p0 hst hsp]
  rw [calc_moving_closing calib n1 t0 p0 s hd hst hsp ht0,
    calc_moving_closing calib n2 t0 p0 s hd hst hsp ht0]
  apply clamp_mono
  apply pyInt_mono
  have hdiv : (n1 - t0) / calib.time_to_close ≤ (n2 - t0) / calib.time_to_close :=
    div_le_div_of_nonneg_right (by linarith) hT.le
  nlinarith

theorem calc_bounds_opening (calib : Calib) (hT : 0 < calib.time_to_open)
    (s : CoverState) (q p : ℤ) (t0 now : ℚ)
    (hd : s.movement_direction = some Direction.opening)
    (hst : s.movement_start_time = some t0) (hsp : s.movement_start_position = some q)
    (ht0 : t0 ≠ 0) (hq0 : 0 ≤ q) (hqp : q ≤ p) (hp : p ≤ 100)
    (h1 : t0 ≤ now) (h2 : now ≤ t0 + ((p : ℚ) - (q : ℚ)) / 100 * calib.time_to_open) :
    q ≤ calculateCurrentPosition calib now s ∧ calculateCurrentPosition calib now s ≤ p := by
  rw [calc_moving_opening calib now t0 q s hd hst hsp ht0]
  have hden : (0 : ℚ) < 100 := by norm_num
  have hdelta0 : 0 ≤ (now - t0) / calib.time_to_open * 100 := by
    have : 0 ≤ (now - t0) / calib.time_to_open := div_nonneg (by linarith) hT.le
    nlinarith
  have hdelta1 : (now - t0) / calib.time_to_open * 100 ≤ (p : ℚ) - (q : ℚ) := by
    rw [div_mul_eq_mul_div, div_le_iff₀ hT]
    nlinarith
  have hx1 : (q : ℚ) ≤ (q : ℚ) + (now - t0) / calib.time_to_open * 100 := by linarith
  have hx2 : (q : ℚ) + (now - t0) / calib.time_to_open * 100 ≤ (p : ℚ) := by linarith
  have hge : q ≤ pyInt ((q : ℚ) + (now - t0) / calib.time_to_open * 100) :=
    (pyInt_intCast q).symm.trans_le (pyInt_mono hx1)
  have hle : pyInt ((q : ℚ) + (now - t0) / calib.time_to_open * 100) ≤ p :=
    le_of_le_of_eq (pyInt_mono hx2) (pyInt_intCast p)
  constructor
  · refine le_trans (le_min ?_ hge) (le_max_right _ _)
    show q ≤ POSITION_OPEN
    unfold POSITION_OPEN
    omega
  · refine max_le ?_ (le_trans (min_le_right _ _) hle)
    show POSITION_CLOSED ≤ p
    unfold POSITION_CLOSED
    omega

theorem calc_bounds_closing (calib : Calib) (hT : 0 < calib.time_to_close)
    (s : CoverState) (q p : ℤ) (t0 now : ℚ)
    (hd : s.movement_direction = some Direction.closing)
    (hst : s.movement_start_time = some t0) (hsp : s.movement_start_position = some q)
    (ht0 : t0 ≠ 0) (hp0 : 0 ≤ p) (hpq : p ≤ q) (hq : q ≤ 100)
    (h1 : t0 ≤ now) (h2 : now ≤ t0 + ((q : ℚ) - (p : ℚ)) / 100 * calib.time_to_close) :
    p ≤ calculateCurrentPosition calib now s ∧ calculateCurrentPosition calib now s ≤ q := by
  rw [calc_moving_closing calib now t0 q s hd hst hsp ht0]
  have hdelta0 : 0 ≤ (now - t0) / calib.time_to_close * 100 := by
    have : 0 ≤ (now - t0) / calib.time_to_close := div_nonneg (by linarith) hT.le
    nlinarith
  have hdelta1 : (now - t0) / calib.time_to_close * 100 ≤ (q : ℚ) - (p : ℚ) := by
    rw [div_mul_eq_mul_div, div_le_iff₀ hT]
    nlinarith
  have hx1 : (p : ℚ) ≤ (q : ℚ) - (now - t0) / calib.time_to_close * 100 := by linarith
  have hx2 : (q : ℚ) - (now - t0) / calib.time_to_close * 100 ≤ (q : ℚ) := by linarith
  have hge : p ≤ pyInt ((q : ℚ) - (now - t0) / calib.time_to_close * 100) :=
    (pyInt_intCast p).symm.trans_le (pyInt_mono hx1)
  have hle : pyInt ((q : ℚ) - (now - t0) / calib.time_to_close * 100) ≤ q :=
    le_of_le_of_eq (pyInt_mono hx2) (pyInt_intCast q)
  constructor
  · refine le_trans (le_min ?_ hge) (le_max_right _ _)
    show p ≤ POSITION_OPEN
    unfold POSITION_OPEN
    omega
  · refine max_le ?_ (le_trans (min_le_right _ _) hle)
    show POSITION_CLOSED ≤ q
    unfold POSITION_CLOSED
    omega

theorem setCover_from_idle (calib : Calib) (p q : ℤ) (t0 : ℚ) (hne : p ≠ q) :
    (setCoverPosition calib (some p) t0 none (idleAt q)).1 =
      { current_position := q
        target_position := some p
        movement_start_time := some t0
        movement_start_position := some q
        movement_direction :=
          some (if p - q > 0 then Direction.opening else Direction.closing)
        position_timer :=
          some ⟨|((p : ℚ) - (q : ℚ))| / 100 *
                  (if p - q > 0 then calib.time_to_open else calib.time_to_close),
                p, false⟩ } := by
  unfold setCoverPosition stopAndCalculatePosition isMoving idleAt startMovement
  simp [hne]

theorem finalizeMovement_movement (position : ℤ) (s : CoverState) :
    (finalizeMovement position s).movement_direction = none ∧
    (finalizeMovement position s).movement_start_time = none ∧
    (finalizeMovement position s).movement_start_position = none := by
  unfold finalizeMovement
  exact ⟨rfl, rfl, rfl⟩

theorem stopCoverInternal_movement (calib : Calib) (now : ℚ)
    (source : Option SourceState) (s : CoverState) :
    (stopCoverInternal calib now source s).1.movement_direction = none ∧
    (stopCoverInternal calib now source s).1.movement_start_time = none ∧
    (stopCoverInternal calib now source s).1.movement_start_position = none := by
  unfold stopCoverInternal
  refine ⟨?_, ?_, ?_⟩
  · rw [cancelPositionTimer_direction]
  · rw [cancelPositionTimer_start_time]
  · rw [cancelPositionTimer_start_pos]

theorem startMovement_movement (direction : Direction) (target : ℤ) (now : ℚ)
    (s : CoverState) :
    (startMovement direction target now s).movement_direction = some direction ∧
    (startMovement direction target now s).movement_start_time = some now ∧
    (startMovement direction target now s).movement_start_position =
      some s.current_position := by
  unfold startMovement
  exact ⟨rfl, rfl, rfl⟩

theorem lockstep_startMovement (direction : Direction) (target : ℤ) (now : ℚ)
    (s : CoverState) : lockstep (startMovement direction target now s) := by
  unfold lockstep startMovement
  simp

theorem lockstep_cleared (s : CoverState) (h1 : s.movement_direction = none)
    (h2 : s.movement_start_time = none) (h3 : s.movement_start_position = none) :
    lockstep s := by
  unfold lockstep
  rw [h1, h2, h3]
  simp

theorem lockstep_stopCoverInternal (calib : Calib) (now : ℚ)
    (source : Option SourceState) (s : CoverState) :
    lockstep (stopCoverInternal calib now source s).1 := by
  obtain ⟨h1, h2, h3⟩ := stopCoverInternal_movement calib now source s
  exact lockstep_cleared _ h1 h2 h3

theorem lockstep_stopAndCalculate (calib : Calib) (now : ℚ)
    (source : Option SourceState) (s : CoverState) (h : lockstep s) :
    lockstep (stopAndCalculatePosition calib now source s).1 := by
  unfold stopAndCalculatePosition
  split
  · exact lockstep_stopCoverInternal calib now source _
  · exact h

theorem lockstep_step (calib : Calib) (e : Event) (s : CoverState)
    (h : lockstep s) : lockstep (step calib e s) := by
  cases e with
  | openCover now src =>
    exact lockstep_startMovement Direction.opening POSITION_OPEN now _
  | closeCover now src =>
    exact lockstep_startMovement Direction.closing POSITION_CLOSED now _
  | setPosition p now src =>
    show lockstep (setCoverPosition calib p now src s).1
    unfold setCoverPosition
    rcases p with _ | position
    · exact h
    simp only
    split
    · exact lockstep_stopAndCalculate calib now src s h
    · exact lockstep_startMovement _ position now _
  | stopCover now src =>
    exact lockstep_stopCoverInternal calib now src s
  | sourceEvent ns =>
    show lockstep (sourceStateChanged ns s)
    unfold sourceStateChanged
    rcases ns with _ | sourcePosition
    · exact h
    simp only
    split
    · obtain ⟨h1, h2, h3⟩ := finalizeMovement_movement POSITION_CLOSED s
      exact lockstep_cleared _ h1 h2 h3
    split
    · obtain ⟨h1, h2, h3⟩ := finalizeMovement_movement POSITION_OPEN s
      exact lockstep_cleared _ h1 h2 h3
    · exact h
  | timerFire src =>
    show lockstep (step calib (Event.timerFire src) s)
    unfold step
    rcases s.position_timer with _ | t
    · exact h
    simp only
    split
    · exact lockstep_cleared _ rfl rfl rfl
    · exact h

/-- C1 counterexample: a `Moving(Opening)` state whose start time is the
float `0.0` (with direction, start time and start position all present)
reports the stored position 37, while the claimed formula yields 47,
because the Python guard `if not self._movement_start_time` treats a
zero start time as absent. -/
theorem C1_counterexample :
    zeroStartState.movement_direction = some Direction.opening ∧
    zeroStartState.movement_start_time = some 0 ∧
    zeroStartState.movement_start_position = some 37 ∧
    currentCoverPosition ⟨30, 20⟩ 3 zeroStartState = 37 ∧
    specEstimate Direction.opening 37 0 ⟨30, 20⟩ 3 = 47 := by
  refine ⟨rfl, rfl, rfl, ?_, ?_⟩
  · norm_num [currentCoverPosition, isMoving, zeroStartState, calculateCurrentPosition]
  · norm_num [specEstimate, pyInt]

/-- C1 (amended): for every `Idle` state the reported position is the
stored believed position, and for every `Moving` state with direction,
start time and start position, provided the start time is nonzero, the
reported position equals the spec formula (start position plus or minus
`elapsed / fullTravel * 100`, truncated and clamped to `[0, 100]`). -/
theorem C1_position_report (calib : Calib) (now : ℚ) (s : CoverState) :
    (s.movement_direction = none → currentCoverPosition calib now s = s.current_position) ∧
    (∀ (dir : Direction) (t0 : ℚ) (p0 : ℤ),
      s.movement_direction = some dir → s.movement_start_time = some t0 →
      s.movement_start_position = some p0 → t0 ≠ 0 →
      currentCoverPosition calib now s = specEstimate dir p0 t0 calib now) := by
  constructor
  · intro h
    simp [currentCoverPosition, isMoving, h]
  · intro dir t0 p0 hd hst hsp ht0
    have hmov : isMoving s = true := by simp [isMoving, hd]
    unfold currentCoverPosition
    rw [if_pos hmov]
    cases dir with
    | opening =>
      rw [calc_moving_opening calib now t0 p0 s hd hst hsp ht0]
      simp [specEstimate, POSITION_CLOSED, POSITION_OPEN]
    | closing =>
      rw [calc_moving_closing calib now t0 p0 s hd hst hsp ht0]
      simp [specEstimate, POSITION_CLOSED, POSITION_OPEN]

/-- C1 witness: a concrete moving state (start time 1, start position 0,
opening, `time_to_open = 30`) reports position 50 at time 16. -/
theorem C1_position_report_witness :
    currentCoverPosition ⟨30, 20⟩ 16
      ⟨0, some 50, some 1, some 0, some Direction.opening, none⟩ = 50 := by
  have h := (C1_position_report ⟨30, 20⟩ 16
      ⟨0, some 50, some 1, some 0, some Direction.opening, none⟩).2
    Direction.opening 1 0 rfl rfl rfl (by norm_num)
  rw [h]
  norm_num [specEstimate, pyInt]

/-- C2: an endpoint event with coarse position 0 (or 100) collapses any
state — in particular `Moving(Closing)` with a pending stop timer — to
`Idle`, the next reported position is exactly the endpoint, and the
pending timer is cancelled. -/
theorem C2_endpoint_override (calib : Calib) (now : ℚ) (s : CoverState) (t : Timer)
    (_hdir : s.movement_direction = some Direction.closing)
    (htimer : s.position_timer = some t) (hpending : t.done = false) :
    (sourceStateChanged (some (some 0)) s).movement_direction = none ∧
    currentCoverPosition calib now (sourceStateChanged (some (some 0)) s) = 0 ∧
    (sourceStateChanged (some (some 0)) s).position_timer = none ∧
    (sourceStateChanged (some (some 100)) s).movement_direction = none ∧
    currentCoverPosition calib now (sourceStateChanged (some (some 100)) s) = 100 ∧
    (sourceStateChanged (some (some 100)) s).position_timer = none := by
  have h0 : sourceStateChanged (some (some 0)) s = finalizeMovement 0 s := by
    simp [sourceStateChanged, POSITION_CLOSED]
  have h100 : sourceStateChanged (some (some 100)) s = finalizeMovement 100 s := by
    simp [sourceStateChanged, POSITION_CLOSED, POSITION_OPEN]
  rw [h0, h100]
  unfold finalizeMovement currentCoverPosition isMoving
  simp [htimer, hpending]

/-- C2 witness: the endpoint override applied to the concrete
`Moving(Closing)` state believing 37 with a pending timer. -/
theorem C2_endpoint_override_witness :
    (sourceStateChanged (some (some 0)) closingAt37).movement_direction = none ∧
    currentCoverPosition ⟨30, 20⟩ 9 (sourceStateChanged (some (some 0)) closingAt37) = 0 ∧
    (sourceStateChanged (some (some 0)) closingAt37).position_timer = none :=
  ⟨(C2_endpoint_override ⟨30, 20⟩ 9 closingAt37 ⟨10, 0, false⟩ rfl rfl rfl).1,
   (C2_endpoint_override ⟨30, 20⟩ 9 closingAt37 ⟨10, 0, false⟩ rfl rfl rfl).2.1,
   (C2_endpoint_override ⟨30, 20⟩ 9 closingAt37 ⟨10, 0, false⟩ rfl rfl rfl).2.2.1⟩

/-- C3 counterexample: when the `open_cover` service call fails, the
state observable afterwards has `movement_direction = some opening`,
not `Idle` — `_start_movement` ran before the await and is not rolled
back. -/
theorem C3_counterexample :
    (openCoverStateOnSendFailure ⟨30, 20⟩ 5 none (idleAt 0)).movement_direction ≠
      none ∧
    (openCoverStateOnSendFailure ⟨30, 20⟩ 5 none (idleAt 0)).movement_direction =
      some Direction.opening := by
  refine ⟨?_, rfl⟩
  intro h
  exact Option.noConfusion h

/-- C3 (amended): for every `open()`, `close()` or `setPosition()` call
whose device command send fails, the controller has already transitioned
to `Moving` (the direction field is set and the believed position equals
the finalized snapshot); it does not remain `Idle`. -/
theorem C3_failed_send_leaves_moving (calib : Calib) (now : ℚ)
    (source : Option SourceState) (s : CoverState) (p : ℤ)
    (hp : p ≠ (stopAndCalculatePosition calib now source s).1.current_position) :
    (openCoverStateOnSendFailure calib now source s).movement_direction =
      some Direction.opening ∧
    (openCoverStateOnSendFailure calib now source s).current_position =
      (stopAndCalculatePosition calib now source s).1.current_position ∧
    (closeCoverStateOnSendFailure calib now source s).movement_direction =
      some Direction.closing ∧
    (setCoverPositionStateOnSendFailure calib p now source s).movement_direction ≠
      none := by
  refine ⟨rfl, rfl, rfl, ?_⟩
  unfold setCoverPositionStateOnSendFailure
  rw [if_neg hp]
  simp [startMovement]

/-- C3 witness: the amended statement at a concrete idle state and
requested position 50. -/
theorem C3_failed_send_leaves_moving_witness :
    (openCoverStateOnSendFailure ⟨30, 20⟩ 5 none (idleAt 0)).movement_direction =
      some Direction.opening ∧
    (setCoverPositionStateOnSendFailure ⟨30, 20⟩ 50 5 none (idleAt 0)).movement_direction ≠
      none := by
  have h := C3_failed_send_leaves_moving ⟨30, 20⟩ 5 none (idleAt 0) 50
    (by norm_num [stopAndCalculatePosition, isMoving, idleAt])
  exact ⟨h.1, h.2.2.2⟩

/-- C4 counterexample: from `Idle` at position 100, `open()` still sends
the `open_cover` command and transitions to `Moving(Opening)` — it is
not a no-op. -/
theorem C4_counterexample :
    (idleAt 100).current_position = 100 ∧
    (idleAt 100).movement_direction = none ∧
    (asyncOpenCover ⟨30, 20⟩ 5 none (idleAt 100)).2 = [Command.open_cover] ∧
    (asyncOpenCover ⟨30, 20⟩ 5 none (idleAt 100)).1.movement_direction =
      some Direction.opening := by
  exact ⟨rfl, rfl, rfl, rfl⟩

/-- C4 (amended): from any `Idle` state — including at the extremes —
`open()` always sends exactly the `open_cover` command and starts
`Moving(Opening)`, and `close()` always sends `close_cover` and starts
`Moving(Closing)`; the at-requested-extreme no-op exists only in
`setPosition(p)` when `p` equals the snapshot position, which sends no
device command and leaves the state unchanged. -/
theorem C4_open_close_always_send (calib : Calib) (now : ℚ)
    (source : Option SourceState) (s : CoverState)
    (hidle : s.movement_direction = none) :
    (asyncOpenCover calib now source s).2 = [Command.open_cover] ∧
    (asyncOpenCover calib now source s).1.movement_direction = some Direction.opening ∧
    (asyncCloseCover calib now source s).2 = [Command.close_cover] ∧
    (asyncCloseCover calib now source s).1.movement_direction = some Direction.closing ∧
    setCoverPosition calib (some s.current_position) now source s = (s, []) := by
  have hmov : isMoving s = false := by simp [isMoving, hidle]
  have hsc : stopAndCalculatePosition calib now source s = (s, []) := by
    unfold stopAndCalculatePosition
    rw [hmov]
    simp
  refine ⟨?_, rfl, ?_, rfl, ?_⟩
  · simp [asyncOpenCover, hsc]
  · simp [asyncCloseCover, hsc]
  · simp [setCoverPosition, hsc]

/-- C4 witness: the amended statement at the concrete idle state at
position 100. -/
theorem C4_open_close_always_send_witness :
    (asyncOpenCover ⟨30, 20⟩ 5 none (idleAt 100)).2 = [Command.open_cover] ∧
    setCoverPosition ⟨30, 20⟩ (some 100) 5 none (idleAt 100) = (idleAt 100, []) := by
  have h := C4_open_close_always_send ⟨30, 20⟩ 5 none (idleAt 100) rfl
  exact ⟨h.1, h.2.2.2.2⟩

/-- C5 counterexample: `open()` from `Idle` at position 0 (strictly below
100) leaves the state `Moving(Opening)` with no pending stop timer at
all — the claimed `PendingStop` is never armed by `open()`. -/
theorem C5_counterexample :
    (idleAt 0).current_position = 0 ∧
    (asyncOpenCover ⟨30, 20⟩ 5 none (idleAt 0)).1.movement_direction =
      some Direction.opening ∧
    (asyncOpenCover ⟨30, 20⟩ 5 none (idleAt 0)).1.position_timer = none := by
  exact ⟨rfl, rfl, rfl⟩

/-- C5 (amended): `open()` arms no pending stop action: from any idle
state with no timer, after `open()` the state is `Moving(Opening)` and
the timer slot is still empty (only `setPosition` arms a stop timer), so
the `PendingStop`-iff-`Moving` invariant does not hold for `open()`. -/
theorem C5_open_arms_no_stop (calib : Calib) (now : ℚ) (source : Option SourceState)
    (s : CoverState) (hidle : s.movement_direction = none)
    (htimer : s.position_timer = none) :
    (asyncOpenCover calib now source s).1.movement_direction = some Direction.opening ∧
    (asyncOpenCover calib now source s).1.position_timer = none := by
  have hmov : isMoving s = false := by simp [isMoving, hidle]
  have hsc : stopAndCalculatePosition calib now source s = (s, []) := by
    unfold stopAndCalculatePosition
    rw [hmov]
    simp
  constructor
  · rfl
  · simp [asyncOpenCover, hsc, startMovement, htimer]

/-- C5 witness: the amended statement at the concrete idle state at
position 0. -/
theorem C5_open_arms_no_stop_witness :
    (asyncOpenCover ⟨30, 20⟩ 5 none (idleAt 0)).1.position_timer = none :=
  (C5_open_arms_no_stop ⟨30, 20⟩ 5 none (idleAt 0) rfl rfl).2

/-- C6: with `time_to_open = 30`, `time_to_close = 20`, from `Idle` at
position 0, `setPosition(50)` at any nonzero monotonic time `t0` starts
`Moving(Opening)`, creates the stop timer with delay exactly 15 seconds
and target 50, the estimate at elapsed 7.5 seconds is exactly 25, and
when the timer fires the believed position becomes 50 and the state
becomes `Idle`. -/
theorem C6_setposition_scenario (t0 : ℚ) (ht0 : t0 ≠ 0) :
    (c6run t0).movement_direction = some Direction.opening ∧
    (c6run t0).position_timer = some ⟨15, 50, false⟩ ∧
    calculateCurrentPosition ⟨30, 20⟩ (t0 + 15 / 2) (c6run t0) = 25 ∧
    (positionTimerBody 50 none (c6run t0)).1.current_position = 50 ∧
    (positionTimerBody 50 none (c6run t0)).1.movement_direction = none := by
  have hr : c6run t0 =
      { current_position := 0
        target_position := some 50
        movement_start_time := some t0
        movement_start_position := some 0
        movement_direction := some Direction.opening
        position_timer := some ⟨15, 50, false⟩ } := by
    rw [c6run, setCover_from_idle ⟨30, 20⟩ 50 0 t0 (by norm_num)]
    norm_num
  refine ⟨by rw [hr], by rw [hr], ?_, by rw [hr]; rfl, by rw [hr]; rfl⟩
  rw [hr, calc_moving_opening ⟨30, 20⟩ (t0 + 15 / 2) t0 0 _ rfl rfl rfl ht0]
  have harith : t0 + 15 / 2 - t0 = (15 : ℚ) / 2 := by ring
  rw [harith]
  norm_num [pyInt, POSITION_CLOSED, POSITION_OPEN]

/-- C6 witness: the scenario at the concrete call time 1. -/
theorem C6_setposition_scenario_witness :
    (c6run 1).position_timer = some ⟨15, 50, false⟩ ∧
    calculateCurrentPosition ⟨30, 20⟩ (1 + 15 / 2) (c6run 1) = 25 :=
  ⟨(C6_setposition_scenario 1 (by norm_num)).2.1,
   (C6_setposition_scenario 1 (by norm_num)).2.2.1⟩

/-- C7: a `stop()` call while moving, when the source lacks native stop
support, freezes the believed position at the dead-reckoned estimate
computed at the moment of the call and sends the command opposite the
source's reported transient direction. -/
theorem C7_stop_settle (calib : Calib) (now : ℚ) (src : SourceState) (s : CoverState)
    (hmov : isMoving s = true) (hstop : src.supportsStop = false) :
    (stopCoverInternal calib now (some src) s).1.current_position =
      calculateCurrentPosition calib now s ∧
    (src.motion = SourceMotion.opening →
      (stopCoverInternal calib now (some src) s).2 = [Command.close_cover]) ∧
    (src.motion = SourceMotion.closing →
      (stopCoverInternal calib now (some src) s).2 = [Command.open_cover]) := by
  refine ⟨?_, ?_, ?_⟩
  · show (cancelPositionTimer _).current_position = _
    rw [cancelPositionTimer_current]
    simp [hmov]
  · intro hm
    simp [stopCoverInternal, settleCommands, hstop, hm]
  · intro hm
    simp [stopCoverInternal, settleCommands, hstop, hm]

/-- C7 witness: stopping the concrete `Moving(Closing)` state while the
stop-incapable source reports closing sends `open_cover` and freezes the
estimate. -/
theorem C7_stop_settle_witness :
    (stopCoverInternal ⟨30, 20⟩ 9 (some ⟨false, SourceMotion.closing⟩)
        closingAt37).1.current_position =
      calculateCurrentPosition ⟨30, 20⟩ 9 closingAt37 ∧
    (stopCoverInternal ⟨30, 20⟩ 9 (some ⟨false, SourceMotion.closing⟩)
        closingAt37).2 = [Command.open_cover] :=
  ⟨(C7_stop_settle ⟨30, 20⟩ 9 ⟨false, SourceMotion.closing⟩ closingAt37 rfl rfl).1,
   (C7_stop_settle ⟨30, 20⟩ 9 ⟨false, SourceMotion.closing⟩ closingAt37 rfl rfl).2.2 rfl⟩

/-- C8 counterexample: after `setPosition(50)` from `Idle` at 0 (called
at time 30, `time_to_open = 30`), the estimate at time 30 and at the
strictly later time 30.1 are both 0 although the target 50 has not been
reached — the integer-truncated estimate is not strictly monotonic. -/
theorem C8_counterexample :
    (30 : ℚ) < 301 / 10 ∧
    c8run.target_position = some 50 ∧
    calculateCurrentPosition ⟨30, 20⟩ 30 c8run = 0 ∧
    calculateCurrentPosition ⟨30, 20⟩ (301 / 10) c8run = 0 := by
  have hr : c8run =
      { current_position := 0
        target_position := some 50
        movement_start_time := some 30
        movement_start_position := some 0
        movement_direction := some Direction.opening
        position_timer := some ⟨15, 50, false⟩ } := by
    rw [c8run, setCover_from_idle ⟨30, 20⟩ 50 0 30 (by norm_num)]
    norm_num
  refine ⟨by norm_num, by rw [hr], ?_, ?_⟩
  · rw [hr, calc_moving_opening ⟨30, 20⟩ 30 30 0 _ rfl rfl rfl (by norm_num)]
    norm_num [pyInt, POSITION_CLOSED, POSITION_OPEN]
  · rw [hr, calc_moving_opening ⟨30, 20⟩ (301 / 10) 30 0 _ rfl rfl rfl (by norm_num)]
    norm_num [pyInt, POSITION_CLOSED, POSITION_OPEN]

/-- C8 (amended): within a fixed movement segment the estimate is
monotonic in `now` — non-decreasing when opening, non-increasing when
closing — and after `setPosition(p)` from `Idle` at `q` (both in
`[0, 100]`, call time nonzero) the estimate stays between `q` and `p`
inclusive for every `now` up to the scheduled stop; strict monotonicity
fails because the estimate is truncated to an integer. -/
theorem C8_monotone_and_bounded (calib : Calib)
    (hTo : 0 < calib.time_to_open) (hTc : 0 < calib.time_to_close) :
    (∀ (s : CoverState) (n1 n2 : ℚ), n1 ≤ n2 →
      (s.movement_direction = some Direction.opening →
        calculateCurrentPosition calib n1 s ≤ calculateCurrentPosition calib n2 s) ∧
      (s.movement_direction = some Direction.closing →
        calculateCurrentPosition calib n2 s ≤ calculateCurrentPosition calib n1 s)) ∧
    (∀ (q p : ℤ) (t0 now : ℚ), 0 ≤ q → q ≤ 100 → 0 ≤ p → p ≤ 100 → p ≠ q →
      t0 ≠ 0 → t0 ≤ now →
      now ≤ t0 + |(p : ℚ) - (q : ℚ)| / 100 *
        (if p - q > 0 then calib.time_to_open else calib.time_to_close) →
      min q p ≤ calculateCurrentPosition calib now
          (setCoverPosition calib (some p) t0 none (idleAt q)).1 ∧
        calculateCurrentPosition calib now
          (setCoverPosition calib (some p) t0 none (idleAt q)).1 ≤ max q p) := by
  constructor
  · intro s n1 n2 h
    exact ⟨fun hd => calc_mono_opening calib hTo s hd h,
           fun hd => calc_mono_closing calib hTc s hd h⟩
  · intro q p t0 now hq0 hq1 hp0 hp1 hne ht0 h1 h2
    have hst : (setCoverPosition calib (some p) t0 none (idleAt q)).1.movement_start_time =
        some t0 := by
      rw [setCover_from_idle calib p q t0 hne]
    have hsp :
        (setCoverPosition calib (some p) t0 none (idleAt q)).1.movement_start_position =
        some q := by
      rw [setCover_from_idle calib p q t0 hne]
    by_cases hpq : p - q > 0
    · have hqp : q ≤ p := by omega
      have hqpQ : (0 : ℚ) ≤ (p : ℚ) - (q : ℚ) := by
        have hz : (0 : ℤ) ≤ p - q := by omega
        exact_mod_cast hz
      rw [abs_of_nonneg hqpQ, if_pos hpq] at h2
      have hd : (setCoverPosition calib (some p) t0 none (idleAt q)).1.movement_direction =
          some Direction.opening := by
        rw [setCover_from_idle calib p q t0 hne]
        show some (if p - q > 0 then Direction.opening else Direction.closing) = _
        rw [if_pos hpq]
      have hb := calc_bounds_opening calib hTo _ q p t0 now
        hd hst hsp ht0 hq0 hqp hp1 h1 h2
      rw [min_eq_left hqp, max_eq_right hqp]
      exact hb
    · have hqp : p ≤ q := by omega
      have hqpQ : (p : ℚ) - (q : ℚ) ≤ 0 := by
        have hz : p - q ≤ (0 : ℤ) := by omega
        exact_mod_cast hz
      have habs : |(p : ℚ) - (q : ℚ)| = (q : ℚ) - (p : ℚ) := by
        rw [abs_of_nonpos hqpQ]
        ring
      rw [habs, if_neg hpq] at h2
      have hd : (setCoverPosition calib (some p) t0 none (idleAt q)).1.movement_direction =
          some Direction.closing := by
        rw [setCover_from_idle calib p q t0 hne]
        show some (if p - q > 0 then Direction.opening else Direction.closing) = _
        rw [if_neg hpq]
      have hb := calc_bounds_closing calib hTc _ q p t0 now
        hd hst hsp ht0 hp0 hqp hq1 h1 h2
      rw [min_eq_right hqp, max_eq_left hqp]
      exact hb

/-- C8 witness: the bounds at the concrete scenario `q = 0`, `p = 50`,
call time 1, observation time 8.5. -/
theorem C8_monotone_and_bounded_witness :
    min (0 : ℤ) 50 ≤ calculateCurrentPosition ⟨30, 20⟩ (17 / 2)
        (setCoverPosition ⟨30, 20⟩ (some 50) 1 none (idleAt 0)).1 ∧
      calculateCurrentPosition ⟨30, 20⟩ (17 / 2)
        (setCoverPosition ⟨30, 20⟩ (some 50) 1 none (idleAt 0)).1 ≤ max (0 : ℤ) 50 :=
  (C8_monotone_and_bounded ⟨30, 20⟩ (by norm_num) (by norm_num)).2 0 50 1 (17 / 2)
    (by norm_num) (by norm_num) (by norm_num) (by norm_num) (by norm_num)
    (by norm_num) (by norm_num) (by norm_num)

/-- C9: when the 60-second calibration wait times out, the measured
constant (`time_to_close` or `time_to_open`) is set to the timeout value
`DEFAULT_TIMEOUT = 60` seconds, for every elapsed time. -/
theorem C9_calibration_timeout_degrades (elapsed : ℚ) :
    calibrateCloseMeasured true elapsed = DEFAULT_TIMEOUT ∧
    calibrateOpenMeasured true elapsed = DEFAULT_TIMEOUT ∧
    DEFAULT_TIMEOUT = 60 :=
  ⟨rfl, rfl, rfl⟩

/-- C10: in every state reachable by any sequence of `open()`, `close()`,
`setPosition()`, `stop()`, source endpoint events and timer fires, the
movement direction, movement start time and movement start position are
set (non-`None`) in lockstep. -/
theorem C10_lockstep_invariant (calib : Calib) (s : CoverState)
    (h : Reachable calib s) : lockstep s := by
  induction h with
  | init restored => exact lockstep_cleared _ rfl rfl rfl
  | next e h ih => exact lockstep_step calib e _ ih

/-- C10 witness: the lockstep invariant at the freshly constructed
entity. -/
theorem C10_lockstep_invariant_witness : lockstep (initialState none) :=
  C10_lockstep_invariant ⟨30, 20⟩ (initialState none) (Reachable.init none)

end SmartShutter
